import Mathlib

/-!
Verification development for the migrate.ai repository.

This file gives a shallow embedding, in Lean 4, of the control-flow core of the
repository: the JSON "Response Coercer" (src/utils/json_parser.py), the
evaluation-graph routing and state reducers (src/graph/evaluation_graph.py,
src/models/evaluation.py), the superstep executor semantics of the compiled
evaluation graph, and the proposal-generation routing functions
(src/graph/proposal_generation_graph.py over src/models/proposal_generation.py).

Modelling conventions:
- Python strings are `List Char`; Python dicts are association lists in
  insertion order; Python `None` is `Option.none`.
- Python floats that the code compares against literal thresholds are modelled
  as exact rationals (`ℚ`, written with `mkRat`); every comparison performed by
  the code is far from the binary-float rounding boundary, so the orders agree.
- A Python function that can raise is modelled with `Except`.
- Functions that call an LLM are modelled by quantifying over their possible
  partial-state updates (the LLM response is environment input).
-/

/-! ### JSON values

Model of the values produced by Python `json.loads`: objects keep their member
lists in source order (Python keeps the last duplicate key; the inputs in this
development have no duplicate keys), and a number literal is kept as its exact
decimal mantissa and power-of-ten exponent (`"2"` is `num 2 0`, `"2.5"` is
`num 25 (-1)`), which determines the int/float value `json.loads` returns.
The non-standard `NaN`/`Infinity` literals Python accepts by default are not
modelled; no claim involves them. -/
inductive Json where
  | null
  | bool (b : Bool)
  | num (mantissa : ℤ) (exp10 : ℤ)
  | str (s : String)
  | arr (xs : List Json)
  | obj (fields : List (String × Json))
deriving Repr

mutual

def Json.beq : Json → Json → Bool
  | .null, .null => true
  | .bool a, .bool b => a == b
  | .num a e, .num b f => a == b && e == f
  | .str a, .str b => a == b
  | .arr xs, .arr ys => Json.beqList xs ys
  | .obj xs, .obj ys => Json.beqFields xs ys
  | _, _ => false
termination_by structural a => a

def Json.beqList : List Json → List Json → Bool
  | [], [] => true
  | x :: xs, y :: ys => Json.beq x y && Json.beqList xs ys
  | _, _ => false
termination_by structural a => a

def Json.beqFields : List (String × Json) → List (String × Json) → Bool
  | [], [] => true
  | (k, v) :: xs, (l, w) :: ys => k == l && Json.beq v w && Json.beqFields xs ys
  | _, _ => false
termination_by structural a => a

end

mutual

theorem Json.beq_iff : ∀ a b : Json, Json.beq a b = true ↔ a = b
  | .null, .null => by simp [Json.beq]
  | .bool _, .bool _ => by simp [Json.beq]
  | .num _ _, .num _ _ => by simp [Json.beq]
  | .str _, .str _ => by simp [Json.beq]
  | .arr xs, .arr ys => by
      simp only [Json.beq, Json.beqList_iff xs ys, Json.arr.injEq]
  | .obj xs, .obj ys => by
      simp only [Json.beq, Json.beqFields_iff xs ys, Json.obj.injEq]
  | .null, .bool _ => by simp [Json.beq]
  | .null, .num _ _ => by simp [Json.beq]
  | .null, .str _ => by simp [Json.beq]
  | .null, .arr _ => by simp [Json.beq]
  | .null, .obj _ => by simp [Json.beq]
  | .bool _, .null => by simp [Json.beq]
  | .bool _, .num _ _ => by simp [Json.beq]
  | .bool _, .str _ => by simp [Json.beq]
  | .bool _, .arr _ => by simp [Json.beq]
  | .bool _, .obj _ => by simp [Json.beq]
  | .num _ _, .null => by simp [Json.beq]
  | .num _ _, .bool _ => by simp [Json.beq]
  | .num _ _, .str _ => by simp [Json.beq]
  | .num _ _, .arr _ => by simp [Json.beq]
  | .num _ _, .obj _ => by simp [Json.beq]
  | .str _, .null => by simp [Json.beq]
  | .str _, .bool _ => by simp [Json.beq]
  | .str _, .num _ _ => by simp [Json.beq]
  | .str _, .arr _ => by simp [Json.beq]
  | .str _, .obj _ => by simp [Json.beq]
  | .arr _, .null => by simp [Json.beq]
  | .arr _, .bool _ => by simp [Json.beq]
  | .arr _, .num _ _ => by simp [Json.beq]
  | .arr _, .str _ => by simp [Json.beq]
  | .arr _, .obj _ => by simp [Json.beq]
  | .obj _, .null => by simp [Json.beq]
  | .obj _, .bool _ => by simp [Json.beq]
  | .obj _, .num _ _ => by simp [Json.beq]
  | .obj _, .str _ => by simp [Json.beq]
  | .obj _, .arr _ => by simp [Json.beq]

theorem Json.beqList_iff : ∀ xs ys : List Json, Json.beqList xs ys = true ↔ xs = ys
  | [], [] => by simp [Json.beqList]
  | x :: xs, y :: ys => by
      simp [Json.beqList, Json.beq_iff x y, Json.beqList_iff xs ys]
  | [], _ :: _ => by simp [Json.beqList]
  | _ :: _, [] => by simp [Json.beqList]

theorem Json.beqFields_iff :
    ∀ xs ys : List (String × Json), Json.beqFields xs ys = true ↔ xs = ys
  | [], [] => by simp [Json.beqFields]
  | (_, v) :: xs, (_, w) :: ys => by
      simp [Json.beqFields, Json.beq_iff v w, Json.beqFields_iff xs ys, and_assoc]
  | [], _ :: _ => by simp [Json.beqFields]
  | _ :: _, [] => by simp [Json.beqFields]

end

instance : DecidableEq Json := fun a b => decidable_of_iff _ (Json.beq_iff a b)

instance : DecidableEq (Except String Json) := fun a b =>
  match a, b with
  | Except.ok x, Except.ok y =>
      if h : x = y then isTrue (congrArg Except.ok h)
      else isFalse (fun hc => h (Except.ok.inj hc))
  | Except.error x, Except.error y =>
      if h : x = y then isTrue (congrArg Except.error h)
      else isFalse (fun hc => h (Except.error.inj hc))
  | Except.ok _, Except.error _ => isFalse (fun hc => Except.noConfusion hc)
  | Except.error _, Except.ok _ => isFalse (fun hc => Except.noConfusion hc)

/-! ### Model of Python `json.loads`

Faithful to the stdlib decoder in strict mode: whitespace (space, tab, newline,
carriage return) is allowed between tokens; strings are double-quoted with the
eight single-character escapes and `\uXXXX`; raw control characters below 0x20
are rejected inside strings; a number is `-?(0|[1-9][0-9]*)(\.[0-9]+)?`
`([eE][+-]?[0-9]+)?` (a leading-zero numeral such as `01` consumes only the
`0`, exactly as the stdlib number regex does); after the top-level value only
trailing whitespace is allowed. -/

def lbraceChar : Char := Char.ofNat 123

def rbraceChar : Char := Char.ofNat 125

def btickChar : Char := Char.ofNat 96

def isJsonWs (c : Char) : Bool := c = ' ' || c = '\t' || c = '\n' || c = '\r'

def skipJsonWs (s : List Char) : List Char := s.dropWhile isJsonWs

def hexVal (c : Char) : Option Nat :=
  if c.isDigit then some (c.toNat - 48)
  else if 'a' ≤ c && c ≤ 'f' then some (c.toNat - 87)
  else if 'A' ≤ c && c ≤ 'F' then some (c.toNat - 55)
  else none

def escVal (c : Char) : Option Char :=
  if c = '"' then some '"'
  else if c = '\\' then some '\\'
  else if c = '/' then some '/'
  else if c = 'b' then some (Char.ofNat 8)
  else if c = 'f' then some (Char.ofNat 12)
  else if c = 'n' then some '\n'
  else if c = 'r' then some '\r'
  else if c = 't' then some '\t'
  else none

def parseStringBody : List Char → Option (List Char × List Char)
  | [] => none
  | c :: rest =>
    if c = '"' then some ([], rest)
    else if c = '\\' then
      match rest with
      | [] => none
      | 'u' :: a :: b :: c2 :: d :: rest3 =>
        match hexVal a, hexVal b, hexVal c2, hexVal d with
        | some ha, some hb, some hc, some hd =>
          match parseStringBody rest3 with
          | some (cs, r) =>
            some (Char.ofNat (((ha * 16 + hb) * 16 + hc) * 16 + hd) :: cs, r)
          | none => none
        | _, _, _, _ => none
      | e :: rest2 =>
        match escVal e with
        | some ec =>
          match parseStringBody rest2 with
          | some (cs, r) => some (ec :: cs, r)
          | none => none
        | none => none
    else if c.toNat < 32 then none
    else
      match parseStringBody rest with
      | some (cs, r) => some (c :: cs, r)
      | none => none

def takeDigits (acc count : Nat) : List Char → Nat × Nat × List Char
  | c :: rest =>
    if c.isDigit then takeDigits (acc * 10 + (c.toNat - 48)) (count + 1) rest
    else (acc, count, c :: rest)
  | [] => (acc, count, [])

def fracDigits : List Char → Nat × Nat × List Char
  | '.' :: d :: rest =>
    if d.isDigit then takeDigits (d.toNat - 48) 1 rest
    else (0, 0, '.' :: d :: rest)
  | s => (0, 0, s)

def expValue : List Char → ℤ × List Char
  | e :: rest =>
    if e = 'e' || e = 'E' then
      match rest with
      | '+' :: d :: r2 =>
        if d.isDigit then
          let (v, _, r) := takeDigits (d.toNat - 48) 1 r2
          ((v : ℤ), r)
        else (0, e :: rest)
      | '-' :: d :: r2 =>
        if d.isDigit then
          let (v, _, r) := takeDigits (d.toNat - 48) 1 r2
          (-(v : ℤ), r)
        else (0, e :: rest)
      | d :: r2 =>
        if d.isDigit then
          let (v, _, r) := takeDigits (d.toNat - 48) 1 r2
          ((v : ℤ), r)
        else (0, e :: rest)
      | [] => (0, e :: rest)
    else (0, e :: rest)
  | [] => (0, [])

def finishNumber (neg : Bool) (intPart : Nat) (s : List Char) : Json × List Char :=
  let (fv, fc, r1) := fracDigits s
  let (e, r2) := expValue r1
  let mantNat : Nat := intPart * 10 ^ fc + fv
  let mant : ℤ := if neg then -(mantNat : ℤ) else (mantNat : ℤ)
  (Json.num mant (e - (fc : ℤ)), r2)

def parseNumberAfterSign (neg : Bool) : List Char → Option (Json × List Char)
  | c :: rest =>
    if c = '0' then some (finishNumber neg 0 rest)
    else if c.isDigit then
      let (iv, _, r0) := takeDigits (c.toNat - 48) 1 rest
      some (finishNumber neg iv r0)
    else none
  | [] => none

mutual

def parseJsonValue : Nat → List Char → Option (Json × List Char)
  | 0, _ => none
  | fuel + 1, s =>
    let s1 := skipJsonWs s
    if s1.take 4 = ['t', 'r', 'u', 'e'] then some (Json.bool true, s1.drop 4)
    else if s1.take 5 = ['f', 'a', 'l', 's', 'e'] then some (Json.bool false, s1.drop 5)
    else if s1.take 4 = ['n', 'u', 'l', 'l'] then some (Json.null, s1.drop 4)
    else
      match s1 with
      | [] => none
      | c :: rest =>
        if c = '"' then
          match parseStringBody rest with
          | some (cs, r) => some (Json.str cs.asString, r)
          | none => none
        else if c = lbraceChar then
          match skipJsonWs rest with
          | [] => none
          | c2 :: r2 =>
            if c2 = rbraceChar then some (Json.obj [], r2)
            else
              match parseJsonMembers fuel (c2 :: r2) with
              | some (ms, r) => some (Json.obj ms, r)
              | none => none
        else if c = '[' then
          match skipJsonWs rest with
          | [] => none
          | c2 :: r2 =>
            if c2 = ']' then some (Json.arr [], r2)
            else
              match parseJsonElems fuel (c2 :: r2) with
              | some (xs, r) => some (Json.arr xs, r)
              | none => none
        else if c = '-' then parseNumberAfterSign true rest
        else if c.isDigit then parseNumberAfterSign false s1
        else none

def parseJsonMembers : Nat → List Char → Option (List (String × Json) × List Char)
  | 0, _ => none
  | fuel + 1, s =>
    match skipJsonWs s with
    | '"' :: rest =>
      match parseStringBody rest with
      | some (key, r1) =>
        match skipJsonWs r1 with
        | ':' :: r2 =>
          match parseJsonValue fuel r2 with
          | some (v, r3) =>
            match skipJsonWs r3 with
            | ',' :: r4 =>
              match parseJsonMembers fuel r4 with
              | some (ms, r5) => some ((key.asString, v) :: ms, r5)
              | none => none
            | c :: r4 =>
              if c = rbraceChar then some ([(key.asString, v)], r4) else none
            | [] => none
          | none => none
        | _ => none
      | none => none
    | _ => none

def parseJsonElems : Nat → List Char → Option (List Json × List Char)
  | 0, _ => none
  | fuel + 1, s =>
    match parseJsonValue fuel s with
    | some (v, r1) =>
      match skipJsonWs r1 with
      | ',' :: r2 =>
        match parseJsonElems fuel r2 with
        | some (xs, r3) => some (v :: xs, r3)
        | none => none
      | c :: r2 => if c = ']' then some ([v], r2) else none
      | [] => none
    | none => none

end

/-- Model of `json.loads`: parse one value, then allow only trailing
whitespace (otherwise the decoder raises the "Extra data" `JSONDecodeError`).
The fuel `s.length + 1` suffices because each nesting level consumes at least
one character before recursing. -/
def json_loads (s : List Char) : Option Json :=
  match parseJsonValue (s.length + 1) s with
  | some (v, rest) => if skipJsonWs rest = [] then some v else none
  | none => none

/-! ### Models of the two regex searches in `parse_llm_json_response`
(src/utils/json_parser.py lines 28 and 36). -/

/-- Python `\s` on the ASCII range: space, tab, newline, carriage return,
vertical tab, form feed.  (The full unicode `\s` also matches several
non-ASCII separators; the inputs in this development are ASCII.) -/
def isPyWs (c : Char) : Bool :=
  c = ' ' || c = '\t' || c = '\n' || c = '\r' || c = Char.ofNat 11 || c = Char.ofNat 12

/-- Lazy scan for the end of the capture group `(\{.*?\})` followed by
`\s*` and a closing triple backtick: the shortest extension of `.*?` wins, and
a brace whose tail fails the `\s*`-backtick check is swallowed by `.*?` and the
scan continues — exactly the backtracking order of the lazy quantifier.
The accumulator holds the scanned characters in reverse. -/
def lazyFencedClose (acc : List Char) : List Char → Option (List Char)
  | [] => none
  | c :: rest =>
    if c = rbraceChar ∧ (rest.dropWhile isPyWs).take 3 = [btickChar, btickChar, btickChar] then
      some (acc.reverse ++ [rbraceChar])
    else lazyFencedClose (c :: acc) rest

/-- Attempt to match ``` `(?:json)?\s*(\{.*?\})\s*` ``` followed by a closing
fence at the very start of `s`, returning capture group 1.  The optional
literal `json`, and each greedy `\s*` that is followed by a non-whitespace
literal, are deterministic here: the failing backtracking branches would place
a non-matching character under a literal, so consuming greedily first is
equivalent to full backtracking. -/
def fencedMatchAt (s : List Char) : Option (List Char) :=
  if s.take 3 = [btickChar, btickChar, btickChar] then
    let t := s.drop 3
    let t1 := if t.take 4 = ['j', 's', 'o', 'n'] then t.drop 4 else t
    let t2 := t1.dropWhile isPyWs
    match t2 with
    | c :: u =>
      if c = lbraceChar then
        match lazyFencedClose [] u with
        | some mid => some (lbraceChar :: mid)
        | none => none
      else none
    | [] => none
  else none

/-- Model of `re.search(r'```(?:json)?\s*(\{.*?\})\s*```', s, re.DOTALL)`,
returning `group(1)`: `re.search` tries each start position left to right and
returns the first position where the whole pattern matches. -/
def fencedJsonGroup : List Char → Option (List Char)
  | [] => none
  | c :: rest =>
    match fencedMatchAt (c :: rest) with
    | some g => some g
    | none => fencedJsonGroup rest

def dropToLbrace : List Char → Option (List Char)
  | [] => none
  | c :: rest => if c = lbraceChar then some (c :: rest) else dropToLbrace rest

/-- Model of `re.search(r'\{.*\}', s, re.DOTALL).group(0)`: the leftmost
opening brace with the greedy `.*` running to the last closing brace in the
string (a match exists iff some closing brace follows the first opening
brace). -/
def greedyBraceSpan (s : List Char) : Option (List Char) :=
  match dropToLbrace s with
  | some t =>
    match t.reverse.dropWhile (fun c => c ≠ rbraceChar) with
    | [] => none
    | u => some u.reverse
  | none => none

/-! ### The Response Coercer: `parse_llm_json_response`
(src/utils/json_parser.py lines 6-46).  Helpers split the Python function at
its `try` blocks; control falls from one attempt to the next both when the
regex finds no match and when the matched text fails `json.loads`. -/

/-- Final clause of `parse_llm_json_response` (lines 42-46): return the
fallback when one was supplied, otherwise raise
`ValueError(f"Could not parse JSON from LLM response: {response_content[:200]}...")`. -/
def coercerFallback (response_content : List Char) (fallback_data : Option Json) :
    Except String Json :=
  match fallback_data with
  | some fb => Except.ok fb
  | none =>
    Except.error
      ("Could not parse JSON from LLM response: ".toList
        ++ response_content.take 200 ++ "...".toList).asString

/-- Third attempt of `parse_llm_json_response` (lines 34-40): greedy
`\{.*\}` search, falling through to the fallback clause on no match or on a
`JSONDecodeError` from the matched span — the two failure modes are combined
with `Option.bind`, matching the Python `if json_match:` guard inside a
`try/except` that passes. -/
def coercerThirdAttempt (response_content : List Char) (fallback_data : Option Json) :
    Except String Json :=
  match (greedyBraceSpan response_content).bind json_loads with
  | some v => Except.ok v
  | none => coercerFallback response_content fallback_data

/-- Model of `parse_llm_json_response(response_content, fallback_data)`:
direct `json.loads`, then the fenced-code-block search, then the greedy
brace-span search, then the fallback clause; the first success is returned. -/
def parse_llm_json_response (response_content : List Char) (fallback_data : Option Json) :
    Except String Json :=
  match json_loads response_content with
  | some v => Except.ok v
  | none =>
    match (fencedJsonGroup response_content).bind json_loads with
    | some v => Except.ok v
    | none => coercerThirdAttempt response_content fallback_data

/-! ### Evaluation data model (src/models/evaluation.py). -/

inductive MigrationPhase where
  | strategise_and_plan
  | migrate_and_modernise
  | manage_and_optimise
deriving DecidableEq, BEq, Repr

inductive DocumentType where
  | rfp
  | proposal
  | response
  | other
deriving DecidableEq, BEq, Repr

/-- Python `ParsedDocument`: `sections : Dict[str, str]` and
`metadata : Dict[str, Any]` are association lists in insertion order
(`Any` values are modelled as JSON-like values). -/
structure ParsedDocument where
  content : String
  document_type : DocumentType
  sections : List (String × String) := []
  metadata : List (String × Json) := []
deriving DecidableEq, Repr

structure PhaseContent where
  phase : MigrationPhase
  relevant_content : String
  key_points : List String := []
  confidence_score : ℚ
deriving DecidableEq, Repr

structure PhaseEvaluation where
  phase : MigrationPhase
  score : ℤ
  strengths : List String := []
  weaknesses : List String := []
  evidence : List String := []
  recommendations : List String := []
deriving DecidableEq, Repr

structure SpecCompliance where
  overall_compliance_score : ℚ
  missing_elements : List String := []
  compliance_strengths : List String := []
  improvement_areas : List String := []
  recommendations : List String := []
deriving DecidableEq, Repr

structure Gap where
  area : String
  severity : String
  description : String
  impact : String
  phase : Option MigrationPhase := none
deriving DecidableEq, Repr

structure Recommendation where
  title : String
  description : String
  priority : String
  phase : Option MigrationPhase := none
  implementation_effort : String
deriving DecidableEq, Repr

structure GapAnalysis where
  critical_gaps : List (List (String × String)) := []
  high_priority_gaps : List (List (String × String)) := []
  medium_priority_gaps : List (List (String × String)) := []
  low_priority_gaps : List (List (String × String)) := []
deriving DecidableEq, Repr

structure Recommendations where
  critical_recommendations : List (List (String × String)) := []
  high_priority_recommendations : List (List (String × String)) := []
  medium_priority_recommendations : List (List (String × String)) := []
  low_priority_recommendations : List (List (String × String)) := []
deriving DecidableEq, Repr

structure FinalScore where
  final_score : ℤ
  score_breakdown : List (String × Json) := []
  score_rationale : String := ""
  grade : String := "C"
deriving DecidableEq, Repr

structure EvaluationResult where
  phase_evaluations : List PhaseEvaluation := []
  spec_compliance : Option SpecCompliance := none
  gap_analysis : Option GapAnalysis := none
  recommendations : Option Recommendations := none
  final_score : Option FinalScore := none
  errors : List String := []
deriving DecidableEq, Repr

/-! ### Merge reducers (src/models/evaluation.py lines 107-127).

In a node update, an absent key leaves a field untouched; for the three
reducer-annotated fields the reducers below are applied with the node's value
for the key (`None` checks included, exactly as written in the source). -/

/-- Python `add_to_list(existing, new)`: treat `None` as `[]` on either side
and concatenate, keeping order. -/
def add_to_list (existing new : Option (List α)) : List α :=
  (match existing with
   | none => []
   | some l => l)
  ++
  (match new with
   | none => []
   | some l => l)

/-- Python `keep_latest(existing, new)`: the new value wins when it is not
`None`. -/
def keep_latest (existing new : Option α) : Option α :=
  match new with
  | some v => some v
  | none => existing

/-- Python `keep_first_error(existing, new)`: the first non-`None` value
wins. -/
def keep_first_error (existing new : Option String) : Option String :=
  match existing with
  | some e => some e
  | none => new

/-- Python `GraphState` (src/models/evaluation.py lines 130-139), with each
field's registered reducer noted. -/
structure GraphState where
  parsed_document : Option ParsedDocument := none          -- keep_latest
  phase_contents : List PhaseContent := []                 -- add_to_list
  phase_evaluations : List PhaseEvaluation := []           -- add_to_list
  spec_compliance : Option SpecCompliance := none          -- default last-value
  gaps : List Gap := []                                    -- add_to_list
  recommendations : List Recommendation := []              -- add_to_list
  evaluation_result : Option EvaluationResult := none      -- default last-value
  error : Option String := none                            -- keep_first_error
deriving DecidableEq, Repr

/-! ### Conditional routing of the evaluation graph
(src/graph/evaluation_graph.py lines 20-75). -/

/-- Python `should_evaluate_phase(state, phase)`: the loop returns on the
first `phase_contents` entry whose phase matches; the threshold in the source
is the float literal `0.5`, the sentinel string is produced by
`extract_intent_and_phases` for phases without content. -/
def should_evaluate_phase (state : GraphState) (phase : MigrationPhase) : Bool :=
  match state.phase_contents.find? (fun pc => pc.phase == phase) with
  | some pc =>
      decide (pc.confidence_score > mkRat 1 2) &&
      pc.relevant_content != "No relevant content identified"
  | none => false

/-- The best-phase loop of `route_after_phase_extraction` (lines 58-63):
`best_score` starts at `0`, a later entry replaces the best only when its
score is strictly greater. -/
def bestPhaseFold : List PhaseContent → Option MigrationPhase → ℚ → Option MigrationPhase
  | [], best, _ => best
  | pc :: rest, best, best_score =>
    if pc.confidence_score > best_score then
      bestPhaseFold rest (some pc.phase) pc.confidence_score
    else bestPhaseFold rest best best_score

/-- The `if/elif/else` fallback of `route_after_phase_extraction`
(lines 67-72): `None` (no entry has a positive score) falls into the `else`
branch together with `manage_and_optimise`. -/
def fallbackEvaluator : Option MigrationPhase → List String
  | some MigrationPhase.strategise_and_plan => ["strategise_and_plan_evaluator"]
  | some MigrationPhase.migrate_and_modernise => ["migrate_and_modernise_evaluator"]
  | _ => ["manage_and_optimise_evaluator"]

/-- Python `route_after_phase_extraction(state)` (lines 32-75): append, in
order, the evaluator of each phase passing `should_evaluate_phase`; when the
list is empty, fall back to the evaluator of the highest-confidence phase. -/
def route_after_phase_extraction (state : GraphState) : List String :=
  let next_nodes :=
    (if should_evaluate_phase state MigrationPhase.strategise_and_plan then
      ["strategise_and_plan_evaluator"] else [])
    ++ (if should_evaluate_phase state MigrationPhase.migrate_and_modernise then
      ["migrate_and_modernise_evaluator"] else [])
    ++ (if should_evaluate_phase state MigrationPhase.manage_and_optimise then
      ["manage_and_optimise_evaluator"] else [])
  if next_nodes.isEmpty then
    fallbackEvaluator (bestPhaseFold state.phase_contents none 0)
  else next_nodes

/-! ### Superstep executor semantics of the compiled evaluation graph
(src/graph/evaluation_graph.py lines 78-123).

The graph library executes the compiled graph in supersteps: every node of the
current frontier reads the same state snapshot, the partial updates are merged
with each field's registered reducer, and the next frontier follows the
declared (conditional) edges of `create_evaluation_graph`.  Node bodies call
an LLM, so the executor is parameterised over the node behaviours. -/

inductive EvalNode where
  | parse_input_doc
  | extract_intent_and_phases
  | strategise_and_plan_evaluator
  | migrate_and_modernise_evaluator
  | manage_and_optimise_evaluator
  | spec_checker
  | gap_highlighter
  | recommendations_generator
  | scoring
deriving DecidableEq, BEq, Repr

/-- A node's partial state update: `none` means the key is absent from the
returned dict (the field keeps its value). -/
structure NodeUpdate where
  parsed_document : Option ParsedDocument := none
  phase_contents : Option (List PhaseContent) := none
  phase_evaluations : Option (List PhaseEvaluation) := none
  spec_compliance : Option SpecCompliance := none
  gaps : Option (List Gap) := none
  recommendations : Option (List Recommendation) := none
  evaluation_result : Option EvaluationResult := none
  error : Option String := none
deriving DecidableEq, Repr

/-- Merge one node update into the state, field by field, with the reducer
registered in `GraphState` (plain last-value replacement for the two fields
without a reducer annotation). -/
def applyUpdate (s : GraphState) (u : NodeUpdate) : GraphState :=
  { parsed_document := keep_latest s.parsed_document u.parsed_document
    phase_contents := add_to_list (some s.phase_contents) u.phase_contents
    phase_evaluations := add_to_list (some s.phase_evaluations) u.phase_evaluations
    spec_compliance :=
      match u.spec_compliance with
      | some v => some v
      | none => s.spec_compliance
    gaps := add_to_list (some s.gaps) u.gaps
    recommendations := add_to_list (some s.recommendations) u.recommendations
    evaluation_result :=
      match u.evaluation_result with
      | some v => some v
      | none => s.evaluation_result
    error := keep_first_error s.error u.error }

/-- The map of the `add_conditional_edges` call (lines 105-109): routing
strings name the evaluator nodes. -/
def evaluatorTarget (name : String) : Option EvalNode :=
  if name = "strategise_and_plan_evaluator" then some EvalNode.strategise_and_plan_evaluator
  else if name = "migrate_and_modernise_evaluator" then some EvalNode.migrate_and_modernise_evaluator
  else if name = "manage_and_optimise_evaluator" then some EvalNode.manage_and_optimise_evaluator
  else none

/-- The edges declared by `create_evaluation_graph` (lines 96-121): all edges
are unconditional except the routed fan-out after `extract_intent_and_phases`;
`scoring` reaches `END`.  No edge consults the `error` field. -/
def evalSuccessors (state : GraphState) : EvalNode → List EvalNode
  | EvalNode.parse_input_doc => [EvalNode.extract_intent_and_phases]
  | EvalNode.extract_intent_and_phases =>
      (route_after_phase_extraction state).filterMap evaluatorTarget
  | EvalNode.strategise_and_plan_evaluator => [EvalNode.spec_checker]
  | EvalNode.migrate_and_modernise_evaluator => [EvalNode.spec_checker]
  | EvalNode.manage_and_optimise_evaluator => [EvalNode.spec_checker]
  | EvalNode.spec_checker => [EvalNode.gap_highlighter]
  | EvalNode.gap_highlighter => [EvalNode.recommendations_generator]
  | EvalNode.recommendations_generator => [EvalNode.scoring]
  | EvalNode.scoring => []

/-- Superstep execution of the compiled evaluation graph: every frontier node
is invoked on the same snapshot, updates are merged in frontier order, the
next frontier is the deduplicated union of the successors.  Returns the final
state and the trace of executed nodes.  `fuel` bounds the number of
supersteps (the acyclic evaluation graph needs at most 7). -/
def runEval (f : EvalNode → GraphState → NodeUpdate) :
    Nat → List EvalNode → GraphState → GraphState × List EvalNode
  | 0, _, s => (s, [])
  | _ + 1, [], s => (s, [])
  | fuel + 1, frontier@(_ :: _), s =>
    let s2 := (frontier.map (fun n => f n s)).foldl applyUpdate s
    let next := (frontier.map (fun n => evalSuccessors s2 n)).flatten.eraseDups
    let rest := runEval f fuel next s2
    (rest.1, frontier ++ rest.2)

/-! ### Proposal-generation data model (src/models/proposal_generation.py). -/

inductive MigrationStrategy where
  | rehost
  | replatform
  | refactor
  | repurchase
  | retire
  | retain
deriving DecidableEq, BEq, Repr

inductive WorkloadComplexity where
  | low
  | medium
  | high
  | critical
deriving DecidableEq, BEq, Repr

inductive CloudProvider where
  | aws
  | azure
  | multi_cloud
deriving DecidableEq, BEq, Repr

inductive GenAITool where
  | github_copilot
  | amazon_q
  | microsoft_365_copilot
  | q_code_transformation
  | langchain
  | custom_ai_agents
deriving DecidableEq, BEq, Repr

/-- Python `DiscoveryInput`: `raw_data : Union[str, Dict[str, Any]]` is a sum;
optional text fields are `Option String`. -/
structure DiscoveryInput where
  source_type : String
  raw_data : String ⊕ List (String × Json)
  client_name : String
  project_name : String
  contact_info : List (String × String) := []
  business_context : Option String := none
  business_drivers : List String := []
  additional_context : Option String := none
  target_cloud : Option String := none
  migration_approach : Option String := none
  timeline_constraint : Option String := none
  budget_constraint : Option String := none
  risk_tolerance : Option String := none
  compliance_requirements : List String := []
deriving DecidableEq, Repr

structure Application where
  name : String
  description : String
  technology_stack : List String
  dependencies : List String := []
  criticality : WorkloadComplexity
  current_environment : String
  data_classification : String := "internal"
  compliance_requirements : List String := []
  estimated_users : Option ℤ := none
  performance_requirements : Option String := none
deriving DecidableEq, Repr

structure WaveGroup where
  wave_number : ℤ
  name : String
  applications : List String
  strategy : String
  estimated_duration_weeks : ℤ
  dependencies : List ℤ := []
  risk_level : WorkloadComplexity
  prerequisites : List String := []
deriving DecidableEq, Repr

structure ArchitectureRecommendation where
  cloud_provider : CloudProvider
  services : List (String × String)
  patterns : List String
  security_controls : List String
  cost_optimisation : List String
  well_architected_pillars : List (String × String)
deriving DecidableEq, Repr

structure GenAIToolPlan where
  tool : GenAITool
  use_cases : List String
  phases : List String
  expected_benefits : List String
  implementation_notes : String
deriving DecidableEq, Repr

structure SprintEstimate where
  wave_number : ℤ
  total_sprints : ℤ
  sprint_duration_weeks : ℤ := 2
  team_size : ℤ
  effort_breakdown : List (String × ℤ)
  assumptions : List String := []
  risks : List String := []
  dependencies : List String := []
deriving DecidableEq, Repr

/-- Python `ProposalSection` nests lists of itself (`subsections`). -/
inductive ProposalSection where
  | mk (section_number : String) (title : String) (content : String)
      (subsections : List ProposalSection)
deriving Repr

/-- Python `ProposalState` (src/models/proposal_generation.py lines 128-167).
Note: the class declares `sprint_estimates` but NO `effort_estimates` field,
and pydantic raises `AttributeError` for undeclared attributes, so
`hasattr(state, 'effort_estimates')` is `False` on every instance.
`migration_strategies : Dict[str, MigrationStrategy]` is keyed by application
name; iterating it yields the string keys. -/
structure ProposalState where
  discovery_input : Option DiscoveryInput := none
  applications : List Application := []
  workload_classification : List (String × Json) := []
  classified_workloads : List (List (String × Json)) := []
  wave_groups : List WaveGroup := []
  migration_waves : List (String × Json) := []
  migration_strategies : List (String × MigrationStrategy) := []
  modernisation_recommendations : List (String × Json) := []
  architecture_recommendations : List ArchitectureRecommendation := []
  genai_tool_plans : List GenAIToolPlan := []
  sprint_estimates : List SprintEstimate := []
  proposal_sections : List ProposalSection := []
  overview_content : Option String := none
  scope_content : Option String := none
  markdown_output : Option String := none
  docx_path : Option String := none
  pdf_path : Option String := none
  version : ℤ := 1
  feedback_loops : List String := []       -- reducer: operator.add (append)
  errors : List String := []               -- reducer: operator.add (append)
  warnings : List String := []             -- reducer: operator.add (append)

/-- A raised Python exception, as observed at the routing-function boundary. -/
inductive PyErr where
  | attributeError (msg : String)
deriving DecidableEq, Repr

/-! ### Proposal-graph routing predicates and routing functions
(src/graph/proposal_generation_graph.py lines 22-116). -/

/-- Python `should_replan_waves(state)` (lines 22-37).
`hasattr(state, 'migration_strategies')` is `True` (declared field) and the
dict's truthiness is non-emptiness.  The `for strategy in
state.migration_strategies:` loop iterates the dict's KEYS, which are `str`;
`isinstance(strategy, dict)` is `False` for a `str`, so the guarded
`modernization_opportunities` / `recommended_strategy` checks are skipped for
every key and the loop falls through to `return False`. -/
def should_replan_waves (state : ProposalState) : Bool :=
  if ¬ state.migration_strategies.isEmpty then
    state.migration_strategies.any (fun _strategyKey => false)
  else false

/-- Python `should_reclassify_strategies(state)` (lines 40-57).
`hasattr(state, 'effort_estimates')` is `False` on every `ProposalState`
(the model declares no such field — the effort node returns an
`"effort_estimates"` key, but no channel exists for it), so the threshold
checks on `total_project_duration_weeks` and `wave_estimates` inside the
`if` body are dead code and the function returns `False` unconditionally. -/
def should_reclassify_strategies (_state : ProposalState) : Bool :=
  false

/-- Python `should_update_scope(state)` (lines 60-79).
When `architecture_recommendations` is empty (or absent) the guard fails and
the function returns `False`.  When it is non-empty, the body immediately
evaluates `arch_recs.get('architecture_patterns', [])` on a
`List[ArchitectureRecommendation]` — a `list` has no attribute `get`, so an
`AttributeError` escapes (no `try` encloses the routing functions). -/
def should_update_scope (state : ProposalState) : Except PyErr Bool :=
  if state.architecture_recommendations.isEmpty then Except.ok false
  else Except.error (PyErr.attributeError "list object has no attribute get")

/-- Python `route_after_modernisation_bias(state)` (lines 82-92): on a
replan decision it appends a marker to `state.feedback_loops` IN PLACE and
returns `"wave_planning"`; otherwise it returns `"architecture_advisor"`
leaving the state untouched.  The mutation is made explicit by returning the
(possibly updated) state alongside the chosen node name. -/
def route_after_modernisation_bias (state : ProposalState) : ProposalState × String :=
  if should_replan_waves state then
    ({ state with
        feedback_loops :=
          state.feedback_loops ++ ["modernisation_bias_triggered_wave_replan"] },
      "wave_planning")
  else (state, "architecture_advisor")

/-- Python `route_after_architecture_advisor(state)` (lines 95-104): the
`should_update_scope` call can raise; on `True` it appends a marker in place
and returns `"generate_scope"`, on `False` it returns
`"genai_tool_planner"`. -/
def route_after_architecture_advisor (state : ProposalState) :
    Except PyErr (ProposalState × String) :=
  match should_update_scope state with
  | Except.error e => Except.error e
  | Except.ok true =>
      Except.ok
        ({ state with
            feedback_loops :=
              state.feedback_loops ++ ["architecture_complexity_triggered_scope_update"] },
          "generate_scope")
  | Except.ok false => Except.ok (state, "genai_tool_planner")

/-- Python `route_after_effort_estimation(state)` (lines 107-116): on a
reclassify decision it appends a marker in place and loops back to
`"migration_strategy_6rs"`; otherwise it proceeds to
`"template_formatter"`. -/
def route_after_effort_estimation (state : ProposalState) : ProposalState × String :=
  if should_reclassify_strategies state then
    ({ state with
        feedback_loops :=
          state.feedback_loops ++ ["effort_estimation_triggered_strategy_reclassification"] },
      "migration_strategy_6rs")
  else (state, "template_formatter")

/-! ### Concrete inputs used by the theorems below. -/

/-- The evaluator node name routed for each phase
(src/graph/evaluation_graph.py lines 41-51 and 67-72). -/
def evaluatorNameOf : MigrationPhase → String
  | MigrationPhase.strategise_and_plan => "strategise_and_plan_evaluator"
  | MigrationPhase.migrate_and_modernise => "migrate_and_modernise_evaluator"
  | MigrationPhase.manage_and_optimise => "manage_and_optimise_evaluator"

/-- All three parse attempts of the Response Coercer fail on `s`. -/
def coercionAllFail (s : List Char) : Prop :=
  json_loads s = none ∧ (fencedJsonGroup s).bind json_loads = none ∧
    (greedyBraceSpan s).bind json_loads = none

def exDirectResponse : List Char := "\x7b\"score\": 2, \"notes\": \"ok\"\x7d".toList

def exFencedResponse : List Char :=
  "Here is the result:\n```json\n\x7b\"score\":1\x7d\n```\nThanks".toList

def exNotJson : List Char := "not json at all".toList

def exArrayResponse : List Char := "[1, 2]".toList

def exScalarResponse : List Char := "7".toList

/-- The spec's selective fan-out example: confidences `[0.2, 0.8, 0.3]` with
genuine phase content. -/
def specExampleState : GraphState :=
  { phase_contents :=
      [ { phase := MigrationPhase.strategise_and_plan
          relevant_content := "Assessment and strategy summary"
          confidence_score := mkRat 2 10 }
      , { phase := MigrationPhase.migrate_and_modernise
          relevant_content := "Migration execution approach"
          confidence_score := mkRat 8 10 }
      , { phase := MigrationPhase.manage_and_optimise
          relevant_content := "Operations model"
          confidence_score := mkRat 3 10 } ] }

/-- The spec's all-below-threshold example: confidences `[0.1, 0.2, 0.3]`. -/
def specLowState : GraphState :=
  { phase_contents :=
      [ { phase := MigrationPhase.strategise_and_plan
          relevant_content := "Assessment and strategy summary"
          confidence_score := mkRat 1 10 }
      , { phase := MigrationPhase.migrate_and_modernise
          relevant_content := "Migration execution approach"
          confidence_score := mkRat 2 10 }
      , { phase := MigrationPhase.manage_and_optimise
          relevant_content := "Operations model"
          confidence_score := mkRat 3 10 } ] }

/-- A state in which the strategise phase clears the 0.5 threshold (0.9) but
carries the sentinel content string, while the migrate phase clears it with
genuine content. -/
def cexSelectiveState : GraphState :=
  { phase_contents :=
      [ { phase := MigrationPhase.strategise_and_plan
          relevant_content := "No relevant content identified"
          confidence_score := mkRat 9 10 }
      , { phase := MigrationPhase.migrate_and_modernise
          relevant_content := "Migration execution approach"
          confidence_score := mkRat 8 10 }
      , { phase := MigrationPhase.manage_and_optimise
          relevant_content := "Operations model"
          confidence_score := mkRat 2 10 } ] }

/-- A state in which every extracted phase has confidence 0.0. -/
def zeroConfidenceState : GraphState :=
  { phase_contents :=
      [ { phase := MigrationPhase.strategise_and_plan
          relevant_content := "No relevant content identified"
          confidence_score := 0 }
      , { phase := MigrationPhase.migrate_and_modernise
          relevant_content := "No relevant content identified"
          confidence_score := 0 }
      , { phase := MigrationPhase.manage_and_optimise
          relevant_content := "No relevant content identified"
          confidence_score := 0 } ] }

def cexParsedDoc : ParsedDocument :=
  { content := "Operations runbook: monitoring, alerting and cost optimisation."
    document_type := DocumentType.other }

/-- Initial evaluation state as built by `EvaluationOrchestrator.evaluate_document`
(src/graph/evaluation_graph.py line 148): only the ingested document is set. -/
def cexInitState : GraphState := { parsed_document := some cexParsedDoc }

/-- The keyword-fallback extraction output of `extract_intent_and_phases`
for an operations-only document
(src/agents/extract_intent_and_phases.py lines 111-132). -/
def cexKeywordPhases : List PhaseContent :=
  [ { phase := MigrationPhase.strategise_and_plan
      relevant_content := "No relevant content identified"
      key_points := ["Content analysis based on keywords"]
      confidence_score := mkRat 1 10 }
  , { phase := MigrationPhase.migrate_and_modernise
      relevant_content := "No relevant content identified"
      key_points := ["Content analysis based on keywords"]
      confidence_score := mkRat 1 10 }
  , { phase := MigrationPhase.manage_and_optimise
      relevant_content := "Operations content detected"
      key_points := ["Content analysis based on keywords"]
      confidence_score := mkRat 7 10 } ]

/-- A reachable behaviour of the step functions: the LLM call inside
`parse_input_doc_node` raises (simulated network failure), so the node returns
only an `error` key (src/agents/parse_input_doc.py lines 107-108 and 120-121);
`extract_intent_and_phases_node` then succeeds via its keyword fallback — the
document is still in state, and the node never consults `state.error`
(src/agents/extract_intent_and_phases.py lines 62-165); the remaining nodes
contribute nothing. -/
def cexNodeBehaviour : EvalNode → GraphState → NodeUpdate
  | EvalNode.parse_input_doc, _ =>
      { error := some "Error in ParseInputDoc agent: network failure" }
  | EvalNode.extract_intent_and_phases, _ =>
      { phase_contents := some cexKeywordPhases }
  | _, _ => {}

/-- One concrete `ArchitectureRecommendation`, populating the list field whose
non-emptiness sends `should_update_scope` into `arch_recs.get(...)`. -/
def cexArchState : ProposalState :=
  { architecture_recommendations :=
      [ { cloud_provider := CloudProvider.aws
          services := [("compute", "EC2")]
          patterns := ["Microservices"]
          security_controls := ["IAM least privilege"]
          cost_optimisation := ["Rightsizing"]
          well_architected_pillars := [("reliability", "multi-AZ")] } ] }

/-- A proposal state whose feedback trail already records three firings of the
effort-estimation feedback edge (the claim's "would fire a 4th time"
scenario), with the iteration counter at 4. -/
def cexLoopState : ProposalState :=
  { version := 4
    feedback_loops :=
      [ "effort_estimation_triggered_strategy_reclassification"
      , "effort_estimation_triggered_strategy_reclassification"
      , "effort_estimation_triggered_strategy_reclassification" ] }

/-! ### Theorems. -/

/-- C5: the registered merge reducers satisfy the spec's algebra — keep-first
(`keep_first_error`) and replace (`keep_latest`) are idempotent when the same
update is repeated exactly, keep-first lets the first non-null value win over
any later value, and the append reducer (`add_to_list`) concatenates new
elements after existing ones in order, so merging two updates in sequence
equals merging their concatenation. -/
theorem reducer_merge_algebra :
    (∀ e u : Option String, keep_first_error (keep_first_error e u) u = keep_first_error e u) ∧
    (∀ (a : String) (v : Option String), keep_first_error (some a) v = some a) ∧
    (∀ (α : Type) (e u : Option α), keep_latest (keep_latest e u) u = keep_latest e u) ∧
    (∀ (α : Type) (s u1 u2 : List α),
      add_to_list (some (add_to_list (some s) (some u1))) (some u2)
        = add_to_list (some s) (some (add_to_list (some u1) (some u2)))) ∧
    (∀ (α : Type) (s u : List α), add_to_list (some s) (some u) = s ++ u) := by
  refine ⟨?_, ?_, ?_, ?_, ?_⟩
  · intro e u
    cases e <;> cases u <;> rfl
  · intro a v
    rfl
  · intro α e u
    cases e <;> cases u <;> rfl
  · intro α s u1 u2
    simp [add_to_list, List.append_assoc]
  · intro α s u
    rfl

/-- C7 (divergence evidence): `route_after_effort_estimation` never takes the
feedback branch — `should_reclassify_strategies` reads the undeclared
`effort_estimates` attribute behind `hasattr`, which is `False` on every
`ProposalState`, so the routing function returns `"template_formatter"` with
the state untouched regardless of any effort figures produced upstream. -/
theorem effort_feedback_route_is_dead :
    ∀ state : ProposalState,
      route_after_effort_estimation state = (state, "template_formatter") := by
  intro state
  rfl

/-- C8 (counterexample): `route_after_architecture_advisor` is not a total
pure function returning a next-node name — on any state with a non-empty
`architecture_recommendations` list it raises `AttributeError` because
`should_update_scope` calls `.get` on a list. -/
theorem routing_purity_counterexample :
    route_after_architecture_advisor cexArchState
      = Except.error (PyErr.attributeError "list object has no attribute get") := by
  rfl

/-- C8 (amended): `route_after_modernisation_bias` and
`route_after_effort_estimation` are pure constants on the declared state type
(their feedback branches are unreachable), returning the input state unchanged
with a fixed next-node name, so repeated invocation on equal states gives
equal results; `route_after_architecture_advisor` is pure and returns
`"genai_tool_planner"` when `architecture_recommendations` is empty, but
raises `AttributeError` whenever that list is non-empty, so it does not always
return a next-node name. -/
theorem routing_functions_amended :
    (∀ s : ProposalState, route_after_modernisation_bias s = (s, "architecture_advisor")) ∧
    (∀ s : ProposalState, route_after_effort_estimation s = (s, "template_formatter")) ∧
    (∀ s : ProposalState, s.architecture_recommendations = [] →
        route_after_architecture_advisor s = Except.ok (s, "genai_tool_planner")) ∧
    (∀ s : ProposalState, s.architecture_recommendations ≠ [] →
        route_after_architecture_advisor s
          = Except.error (PyErr.attributeError "list object has no attribute get")) := by
  refine ⟨?_, ?_, ?_, ?_⟩
  · intro s
    simp [route_after_modernisation_bias, should_replan_waves]
  · intro s
    rfl
  · intro s h
    simp [route_after_architecture_advisor, should_update_scope, h]
  · intro s h
    simp [route_after_architecture_advisor, should_update_scope, List.isEmpty_iff, h]

/-- C8 witness: the amended theorem applied to the empty proposal state. -/
theorem routing_functions_amended_witness :
    route_after_architecture_advisor {} = Except.ok ({}, "genai_tool_planner") :=
  routing_functions_amended.2.2.1 {} rfl

/-- C6 (counterexample): at a state whose feedback trail already records three
firings of the effort feedback edge (a 4th firing per the claim), the routing
functions neither halt the run nor report non-convergence — they return the
ordinary successor node exactly as on a fresh state, leaving the state
untouched; no `max-iterations` bound is consulted. -/
theorem feedback_bound_counterexample :
    route_after_effort_estimation cexLoopState = (cexLoopState, "template_formatter") ∧
    (route_after_effort_estimation cexLoopState).2
      = (route_after_effort_estimation {}).2 ∧
    route_after_modernisation_bias cexLoopState = (cexLoopState, "architecture_advisor") := by
  refine ⟨rfl, rfl, ?_⟩
  simp [route_after_modernisation_bias, should_replan_waves, cexLoopState]

/-- C6 (amended): no feedback edge is guarded by a re-entry bound — the
routing decisions are independent of the recorded feedback trail and iteration
counter, and their codomain contains only the ordinary successor names, so no
distinct non-convergence outcome exists (over the declared state type the
modernisation and effort feedback branches cannot fire at all). -/
theorem feedback_edges_unbounded :
    (∀ (s : ProposalState) (ls : List String) (v : ℤ),
      (route_after_effort_estimation { s with feedback_loops := ls, version := v }).2
        = (route_after_effort_estimation s).2) ∧
    (∀ (s : ProposalState) (ls : List String) (v : ℤ),
      (route_after_modernisation_bias { s with feedback_loops := ls, version := v }).2
        = (route_after_modernisation_bias s).2) ∧
    (∀ s : ProposalState, (route_after_effort_estimation s).2 = "template_formatter") ∧
    (∀ s : ProposalState, (route_after_modernisation_bias s).2 = "architecture_advisor") := by
  refine ⟨?_, ?_, ?_, ?_⟩
  · intro s ls v
    rfl
  · intro s ls v
    simp [route_after_modernisation_bias, should_replan_waves]
  · intro s
    rfl
  · intro s
    simp [route_after_modernisation_bias, should_replan_waves]

theorem should_evaluate_zero {s : GraphState}
    (h : ∀ pc ∈ s.phase_contents, pc.confidence_score = 0) (p : MigrationPhase) :
    should_evaluate_phase s p = false := by
  unfold should_evaluate_phase
  cases hf : s.phase_contents.find? (fun pc => pc.phase == p) with
  | none => rfl
  | some pc =>
    have hz := h pc (List.mem_of_find?_eq_some hf)
    show (decide (pc.confidence_score > mkRat 1 2) &&
      (pc.relevant_content != "No relevant content identified")) = false
    rw [hz]
    have hd : decide ((0 : ℚ) > mkRat 1 2) = false := by decide
    rw [hd, Bool.false_and]

theorem bestPhaseFold_zero :
    ∀ l : List PhaseContent, (∀ pc ∈ l, pc.confidence_score = 0) →
      bestPhaseFold l none 0 = none := by
  intro l
  induction l with
  | nil => intro _; rfl
  | cons pc rest ih =>
    intro h
    have hz : pc.confidence_score = 0 := h pc (List.mem_cons_self pc rest)
    unfold bestPhaseFold
    rw [hz]
    rw [if_neg (lt_irrefl (0 : ℚ))]
    exact ih (fun q hq => h q (List.mem_cons_of_mem pc hq))

/-- C10: whenever every extracted phase has confidence score 0 (so nothing
clears the threshold and no phase has a strictly positive score), the routing
function returns exactly the manage/optimise evaluator — the `else` branch of
the fallback covers the `best_phase is None` case. -/
theorem zero_confidence_routes_to_manage :
    ∀ s : GraphState, (∀ pc ∈ s.phase_contents, pc.confidence_score = 0) →
      route_after_phase_extraction s = ["manage_and_optimise_evaluator"] := by
  intro s h
  unfold route_after_phase_extraction
  rw [should_evaluate_zero h MigrationPhase.strategise_and_plan,
    should_evaluate_zero h MigrationPhase.migrate_and_modernise,
    should_evaluate_zero h MigrationPhase.manage_and_optimise]
  simp only [if_neg Bool.false_ne_true, Bool.false_eq_true]
  rw [bestPhaseFold_zero s.phase_contents h]
  rfl

/-- C10 witness: the theorem applied to the concrete all-zero state. -/
theorem zero_confidence_routes_to_manage_witness :
    route_after_phase_extraction zeroConfidenceState = ["manage_and_optimise_evaluator"] :=
  zero_confidence_routes_to_manage zeroConfidenceState (by decide)

/-- C2 (counterexample): the claim "selects exactly those phase evaluators
whose confidence score clears the 0.5 threshold" is false — in
`cexSelectiveState` the strategise phase clears the threshold (0.9 > 0.5) yet
its evaluator is not selected, because `should_evaluate_phase` additionally
requires the phase's relevant content to differ from the sentinel string. -/
theorem selective_fanout_counterexample :
    (cexSelectiveState.phase_contents.map (fun pc => pc.confidence_score))
        = [mkRat 9 10, mkRat 8 10, mkRat 2 10] ∧
    mkRat 9 10 > mkRat 1 2 ∧
    route_after_phase_extraction cexSelectiveState = ["migrate_and_modernise_evaluator"] ∧
    "strategise_and_plan_evaluator" ∉ route_after_phase_extraction cexSelectiveState := by
  refine ⟨by decide, by decide, by decide, by decide⟩

theorem fallbackEvaluator_length :
    ∀ o : Option MigrationPhase, (fallbackEvaluator o).length = 1
  | none => rfl
  | some MigrationPhase.strategise_and_plan => rfl
  | some MigrationPhase.migrate_and_modernise => rfl
  | some MigrationPhase.manage_and_optimise => rfl

theorem fallbackEvaluator_some :
    ∀ p : MigrationPhase, fallbackEvaluator (some p) = [evaluatorNameOf p]
  | MigrationPhase.strategise_and_plan => rfl
  | MigrationPhase.migrate_and_modernise => rfl
  | MigrationPhase.manage_and_optimise => rfl

theorem route_fallback_of_none_qualify (s : GraphState)
    (h : ∀ p, should_evaluate_phase s p = false) :
    route_after_phase_extraction s
      = fallbackEvaluator (bestPhaseFold s.phase_contents none 0) := by
  unfold route_after_phase_extraction
  rw [h MigrationPhase.strategise_and_plan, h MigrationPhase.migrate_and_modernise,
    h MigrationPhase.manage_and_optimise]
  simp only [Bool.false_eq_true, if_false, List.append_nil, List.isEmpty_nil, if_true]

theorem bestPhaseFold_spec :
    ∀ (l : List PhaseContent) (best : Option MigrationPhase) (b : ℚ),
      (bestPhaseFold l best b = best ∧ ∀ pc ∈ l, pc.confidence_score ≤ b) ∨
      (∃ pc ∈ l, bestPhaseFold l best b = some pc.phase ∧ b < pc.confidence_score ∧
        ∀ qc ∈ l, qc.confidence_score ≤ pc.confidence_score) := by
  intro l
  induction l with
  | nil =>
    intro best b
    exact Or.inl ⟨rfl, by simp⟩
  | cons pc rest ih =>
    intro best b
    by_cases hgt : pc.confidence_score > b
    · have hstep : bestPhaseFold (pc :: rest) best b
          = bestPhaseFold rest (some pc.phase) pc.confidence_score := by
        simp only [bestPhaseFold]
        rw [if_pos hgt]
      rcases ih (some pc.phase) pc.confidence_score with ⟨heq, hle⟩ | ⟨qc, hmem, heq, hlt, hmax⟩
      · refine Or.inr ⟨pc, List.mem_cons_self pc rest, by rw [hstep, heq], hgt, ?_⟩
        intro qc hq
        rcases List.mem_cons.mp hq with hq1 | hq2
        · exact hq1 ▸ le_rfl
        · exact hle qc hq2
      · refine Or.inr ⟨qc, List.mem_cons_of_mem pc hmem, by rw [hstep, heq],
          lt_trans hgt hlt, ?_⟩
        intro rc hr
        rcases List.mem_cons.mp hr with hr1 | hr2
        · exact hr1 ▸ le_of_lt hlt
        · exact hmax rc hr2
    · have hle_pc : pc.confidence_score ≤ b := not_lt.mp hgt
      have hstep : bestPhaseFold (pc :: rest) best b = bestPhaseFold rest best b := by
        simp only [bestPhaseFold]
        rw [if_neg hgt]
      rcases ih best b with ⟨heq, hle⟩ | ⟨qc, hmem, heq, hlt, hmax⟩
      · refine Or.inl ⟨by rw [hstep, heq], ?_⟩
        intro qc hq
        rcases List.mem_cons.mp hq with hq1 | hq2
        · exact hq1 ▸ hle_pc
        · exact hle qc hq2
      · refine Or.inr ⟨qc, List.mem_cons_of_mem pc hmem, by rw [hstep, heq], hlt, ?_⟩
        intro rc hr
        rcases List.mem_cons.mp hr with hr1 | hr2
        · exact hr1 ▸ le_trans hle_pc (le_of_lt hlt)
        · exact hmax rc hr2

/-- C2 (amended): `route_after_phase_extraction` selects exactly those phase
evaluators whose confidence score clears the 0.5 threshold AND whose relevant
content differs from the sentinel `"No relevant content identified"` (the
conjunction computed by `should_evaluate_phase`); on the spec's
`[0.2, 0.8, 0.3]` example with genuine content only the second evaluator is
selected; when no candidate qualifies, exactly one evaluator is selected —
the evaluator of a highest-confidence phase with strictly positive confidence,
or the manage/optimise default when no phase has positive confidence — so at
least one always runs. -/
theorem selective_fanout_amended :
    (∀ s : GraphState,
      (should_evaluate_phase s MigrationPhase.strategise_and_plan = true ∨
       should_evaluate_phase s MigrationPhase.migrate_and_modernise = true ∨
       should_evaluate_phase s MigrationPhase.manage_and_optimise = true) →
      ∀ p : MigrationPhase,
        (evaluatorNameOf p ∈ route_after_phase_extraction s
          ↔ should_evaluate_phase s p = true)) ∧
    (∀ s : GraphState, (∀ p, should_evaluate_phase s p = false) →
      (route_after_phase_extraction s).length = 1) ∧
    (∀ s : GraphState, (∀ p, should_evaluate_phase s p = false) →
      (∃ pc ∈ s.phase_contents,
        route_after_phase_extraction s = [evaluatorNameOf pc.phase] ∧
        0 < pc.confidence_score ∧
        ∀ qc ∈ s.phase_contents, qc.confidence_score ≤ pc.confidence_score) ∨
      ((∀ pc ∈ s.phase_contents, pc.confidence_score ≤ 0) ∧
        route_after_phase_extraction s = ["manage_and_optimise_evaluator"])) ∧
    (∀ s : GraphState, route_after_phase_extraction s ≠ []) ∧
    route_after_phase_extraction specExampleState = ["migrate_and_modernise_evaluator"] ∧
    route_after_phase_extraction specLowState = ["manage_and_optimise_evaluator"] := by
  refine ⟨?_, ?_, ?_, ?_, by decide, by decide⟩
  · intro s h p
    cases h1 : should_evaluate_phase s MigrationPhase.strategise_and_plan <;>
      cases h2 : should_evaluate_phase s MigrationPhase.migrate_and_modernise <;>
        cases h3 : should_evaluate_phase s MigrationPhase.manage_and_optimise <;>
          first
          | (cases p <;>
              simp [route_after_phase_extraction, evaluatorNameOf, h1, h2, h3]
             done)
          | simp [h1, h2, h3] at h
  · intro s h
    rw [route_fallback_of_none_qualify s h]
    exact fallbackEvaluator_length _
  · intro s h
    have hroute := route_fallback_of_none_qualify s h
    rcases bestPhaseFold_spec s.phase_contents none 0 with ⟨heq, hle⟩ |
      ⟨pc, hmem, heq, hpos, hmax⟩
    · refine Or.inr ⟨hle, ?_⟩
      rw [hroute, heq]
      rfl
    · exact Or.inl ⟨pc, hmem, by rw [hroute, heq, fallbackEvaluator_some], hpos, hmax⟩
  · intro s
    cases h1 : should_evaluate_phase s MigrationPhase.strategise_and_plan <;>
      cases h2 : should_evaluate_phase s MigrationPhase.migrate_and_modernise <;>
        cases h3 : should_evaluate_phase s MigrationPhase.manage_and_optimise <;>
          simp [route_after_phase_extraction, h1, h2, h3]
    intro hnil
    exact absurd (hnil ▸ fallbackEvaluator_length (bestPhaseFold s.phase_contents none 0))
      (by simp)

/-- C2 witness: the amended theorem applied to the spec's example state, with
the qualifying-phase hypothesis discharged concretely. -/
theorem selective_fanout_amended_witness :
    should_evaluate_phase specExampleState MigrationPhase.migrate_and_modernise = true ∧
    (evaluatorNameOf MigrationPhase.strategise_and_plan
        ∈ route_after_phase_extraction specExampleState
      ↔ should_evaluate_phase specExampleState MigrationPhase.strategise_and_plan = true) ∧
    ((∃ pc ∈ specLowState.phase_contents,
        route_after_phase_extraction specLowState = [evaluatorNameOf pc.phase] ∧
        0 < pc.confidence_score ∧
        ∀ qc ∈ specLowState.phase_contents, qc.confidence_score ≤ pc.confidence_score) ∨
     ((∀ pc ∈ specLowState.phase_contents, pc.confidence_score ≤ 0) ∧
        route_after_phase_extraction specLowState = ["manage_and_optimise_evaluator"])) :=
  ⟨by decide,
    selective_fanout_amended.1 specExampleState (Or.inr (Or.inl (by decide)))
      MigrationPhase.strategise_and_plan,
    selective_fanout_amended.2.2.1 specLowState (by intro p; cases p <;> decide)⟩

/-- C3: the Response Coercer attempts, in order, (1) direct `json.loads` of
the whole text, (2) `json.loads` of the fenced-code-block capture, (3)
`json.loads` of the greedy `\x7b...\x7d` span, returning the first success; in
particular the spec's direct-parse example returns its object via attempt (1),
and the fenced example — whose full text is not JSON — returns its object via
attempt (2). -/
theorem response_coercer_attempt_order :
    (∀ (s : List Char) (fb : Option Json) (v : Json),
      json_loads s = some v → parse_llm_json_response s fb = Except.ok v) ∧
    (∀ (s : List Char) (fb : Option Json) (g : List Char) (v : Json),
      json_loads s = none → fencedJsonGroup s = some g → json_loads g = some v →
      parse_llm_json_response s fb = Except.ok v) ∧
    (∀ (s : List Char) (fb : Option Json) (g : List Char) (v : Json),
      json_loads s = none → (fencedJsonGroup s).bind json_loads = none →
      greedyBraceSpan s = some g → json_loads g = some v →
      parse_llm_json_response s fb = Except.ok v) ∧
    parse_llm_json_response exDirectResponse none
      = Except.ok (Json.obj [("score", Json.num 2 0), ("notes", Json.str "ok")]) ∧
    (json_loads exFencedResponse = none ∧
     fencedJsonGroup exFencedResponse = some ("\x7b\"score\":1\x7d".toList) ∧
     parse_llm_json_response exFencedResponse none
       = Except.ok (Json.obj [("score", Json.num 1 0)])) := by
  refine ⟨?_, ?_, ?_, by decide, by decide, by decide, by decide⟩
  · intro s fb v h
    simp [parse_llm_json_response, h]
  · intro s fb g v h1 h2 h3
    simp [parse_llm_json_response, h1, h2, h3]
  · intro s fb g v h1 h2 h3 h4
    simp [parse_llm_json_response, coercerThirdAttempt, h1, h2, h3, h4]

/-- C3 witness: the cascade's second attempt applied to the concrete fenced
example, each hypothesis discharged by evaluation. -/
theorem response_coercer_attempt_order_witness :
    parse_llm_json_response exFencedResponse (some Json.null)
      = Except.ok (Json.obj [("score", Json.num 1 0)]) :=
  response_coercer_attempt_order.2.1 exFencedResponse (some Json.null)
    ("\x7b\"score\":1\x7d".toList) (Json.obj [("score", Json.num 1 0)])
    (by decide) (by decide) (by decide)

/-- C4: when all three parse attempts fail, the Response Coercer returns the
caller-supplied fallback unchanged; it never raises when a fallback is given
(on any input), and on an all-attempts-fail input it raises exactly when no
fallback is given — including the spec's `"not json at all"` example with
fallback `score 0`. -/
theorem coercer_fallback_total :
    (∀ (s : List Char) (fb : Json), coercionAllFail s →
      parse_llm_json_response s (some fb) = Except.ok fb) ∧
    (∀ s : List Char, coercionAllFail s →
      ∃ msg, parse_llm_json_response s none = Except.error msg) ∧
    (∀ (s : List Char) (fb : Json) (msg : String),
      parse_llm_json_response s (some fb) ≠ Except.error msg) ∧
    (parse_llm_json_response exNotJson (some (Json.obj [("score", Json.num 0 0)]))
      = Except.ok (Json.obj [("score", Json.num 0 0)]) ∧
     coercionAllFail exNotJson) := by
  refine ⟨?_, ?_, ?_, by decide, by decide, by decide, by decide⟩
  · intro s fb h
    obtain ⟨h1, h2, h3⟩ := h
    simp [parse_llm_json_response, coercerThirdAttempt, coercerFallback, h1, h2, h3]
  · intro s h
    obtain ⟨h1, h2, h3⟩ := h
    have hred : parse_llm_json_response s none = coercerFallback s none := by
      simp [parse_llm_json_response, coercerThirdAttempt, h1, h2, h3]
    rw [hred]
    exact ⟨_, rfl⟩
  · intro s fb msg hc
    unfold parse_llm_json_response at hc
    split at hc
    · exact Except.noConfusion hc
    · split at hc
      · exact Except.noConfusion hc
      · unfold coercerThirdAttempt at hc
        split at hc
        · exact Except.noConfusion hc
        · exact Except.noConfusion hc

/-- C4 witness: the fallback clause applied to the concrete non-JSON input. -/
theorem coercer_fallback_total_witness :
    parse_llm_json_response exNotJson (some Json.null) = Except.ok Json.null :=
  coercer_fallback_total.1 exNotJson Json.null ⟨by decide, by decide, by decide⟩

/-- C9: when the whole input parses as JSON, the Response Coercer returns
exactly the parsed value even when it is not a JSON object — a JSON array or a
scalar literal is returned as such — so the record shape is not enforced on
the direct-parse path and the supplied fallback is never consulted. -/
theorem direct_parse_shape_unenforced :
    (∀ (s : List Char) (fb : Option Json) (v : Json),
      json_loads s = some v → parse_llm_json_response s fb = Except.ok v) ∧
    (∀ (s : List Char) (v : Json), json_loads s = some v →
      ∀ fb1 fb2 : Option Json,
        parse_llm_json_response s fb1 = parse_llm_json_response s fb2) ∧
    parse_llm_json_response exArrayResponse (some (Json.obj [("score", Json.num 0 0)]))
      = Except.ok (Json.arr [Json.num 1 0, Json.num 2 0]) ∧
    parse_llm_json_response exScalarResponse none = Except.ok (Json.num 7 0) := by
  refine ⟨?_, ?_, by decide, by decide⟩
  · intro s fb v h
    simp [parse_llm_json_response, h]
  · intro s v h fb1 fb2
    simp [parse_llm_json_response, h]

/-- C9 witness: the direct-parse clause applied to the scalar input, whose
parsed value is a number, not an object. -/
theorem direct_parse_shape_unenforced_witness :
    parse_llm_json_response exScalarResponse (some Json.null) = Except.ok (Json.num 7 0) :=
  direct_parse_shape_unenforced.1 exScalarResponse (some Json.null) (Json.num 7 0) (by decide)

/-- C1 (counterexample): a run of the evaluation graph in which the first
node's update populates the error field (simulated network failure in
`parse_input_doc`) does NOT short-circuit — the downstream
`extract_intent_and_phases` node still executes (it appears in the trace after
the failing node), the routed evaluator and the whole tail of the pipeline
execute as well, and the downstream extraction contributes its
`phase_contents` field update to the final state alongside the error. -/
theorem no_error_short_circuit_counterexample :
    ((runEval cexNodeBehaviour 10 [EvalNode.parse_input_doc] cexInitState).1).error
        = some "Error in ParseInputDoc agent: network failure" ∧
    (runEval cexNodeBehaviour 10 [EvalNode.parse_input_doc] cexInitState).2
        = [EvalNode.parse_input_doc, EvalNode.extract_intent_and_phases,
           EvalNode.manage_and_optimise_evaluator, EvalNode.spec_checker,
           EvalNode.gap_highlighter, EvalNode.recommendations_generator,
           EvalNode.scoring] ∧
    ((runEval cexNodeBehaviour 10 [EvalNode.parse_input_doc] cexInitState).1).phase_contents
        = cexKeywordPhases := by
  refine ⟨by decide, by decide, by decide⟩

theorem applyUpdate_error_some {s : GraphState} {err : String}
    (h : s.error = some err) (u : NodeUpdate) : (applyUpdate s u).error = some err := by
  simp [applyUpdate, keep_first_error, h]

theorem foldl_applyUpdate_error_some :
    ∀ (us : List NodeUpdate) (s : GraphState) (err : String),
      s.error = some err → (us.foldl applyUpdate s).error = some err
  | [], _, _, h => h
  | u :: us, s, err, h =>
      foldl_applyUpdate_error_some us (applyUpdate s u) err (applyUpdate_error_some h u)

/-- C1 (amended): a populated error field does not short-circuit the run.
The compiled graph's successor relation is independent of the error field (no
edge or routing function consults it), so downstream nodes still execute and
may contribute field updates; what the `keep_first_error` reducer guarantees
is persistence — once some node's update has set the error, every later
superstep preserves it, so the final state carries the first error together
with whatever the remaining nodes contributed. -/
theorem error_does_not_short_circuit :
    (∀ (s : GraphState) (e : Option String) (n : EvalNode),
      evalSuccessors { s with error := e } n = evalSuccessors s n) ∧
    (∀ (f : EvalNode → GraphState → NodeUpdate) (fuel : Nat) (frontier : List EvalNode)
      (s : GraphState) (err : String), s.error = some err →
      ((runEval f fuel frontier s).1).error = some err) := by
  constructor
  · intro s e n
    cases n <;> rfl
  · intro f fuel
    induction fuel with
    | zero => intro frontier s err h; exact h
    | succ fuel ih =>
      intro frontier s err h
      cases frontier with
      | nil => exact h
      | cons a l =>
        have h2 := foldl_applyUpdate_error_some (((a :: l).map (fun n => f n s))) s err h
        simpa [runEval] using ih _ _ err h2

/-- C1 witness: error persistence applied to a concrete run that starts with
the error already populated. -/
theorem error_does_not_short_circuit_witness :
    ((runEval (fun _ _ => {}) 3 [EvalNode.parse_input_doc]
        { error := some "boom" }).1).error = some "boom" :=
  error_does_not_short_circuit.2 (fun _ _ => {}) 3 [EvalNode.parse_input_doc]
    { error := some "boom" } "boom" rfl
